import Mathlib

/-!
Verification of the Nova AI content-moderation bots (Discord and Telegram).

This file gives a shallow embedding of the moderation-decision pipeline of
`src/discord/bot.py` and `src/telegram/bot.py`: the policy/instructions file
loaders, the severity-threshold comparison, the policy/instructions merge
performed by `call_nova_moderation`, the handling of the HTTP response, and
the auto-moderation handlers (`on_message`, `handle_message`).

Python strings are modelled as Lean `String`, Python `int` as `Int` (ids as
`Nat` for Discord, `Int` for Telegram), dictionaries returned by the API as a
record of optional fields (a `get` with default is `Option.getD`).  Module
level configuration constants become fields of explicit config records, with
the shipped values collected in `discordDefaultConfig` and
`telegramDefaultConfig`.
-/

/-! ## Python string primitives -/

/-- Characters stripped by Python `str.strip()` (ASCII whitespace). -/
def pyIsSpace (c : Char) : Bool :=
  c = ' ' || c = '\t' || c = '\n' || c = '\r' || c = Char.ofNat 11 || c = Char.ofNat 12

/-- Python `s.strip()`. -/
def pyStrip (s : String) : String :=
  String.mk (((s.data.dropWhile pyIsSpace).reverse.dropWhile pyIsSpace).reverse)

/-- Helper for `pySplitNl`: split a character list on newline characters. -/
def splitNlAux : List Char → List Char → List String
  | [], cur => [String.mk cur.reverse]
  | c :: rest, cur =>
    if c = '\n' then String.mk cur.reverse :: splitNlAux rest []
    else splitNlAux rest (c :: cur)

/-- Python `s.split("\n")` (keeps empty pieces; `""` gives `[""]`). -/
def pySplitNl (s : String) : List String :=
  splitNlAux s.data []

/-- Python `s.lower()` (ASCII case folding, as used on the `#policy` marker). -/
def pyLower (s : String) : String :=
  String.mk (s.data.map Char.toLower)

/-- Python `s.startswith(pre)`. -/
def pyStartswith (s pre : String) : Bool :=
  pre.data.isPrefixOf s.data

/-- Python `s[:n]` (slice of the first `n` code points). -/
def pyTake (s : String) (n : Nat) : String :=
  String.mk (s.data.take n)

/-- Python truthiness of an optional string (`None` and `""` are falsy). -/
def pyTruthy : Option String → Bool
  | none => false
  | some s => s ≠ ""

/-- Python `"\n".join(ls)`. -/
def joinNl : List String → String
  | [] => ""
  | [l] => l
  | l :: ls => l ++ "\n" ++ joinNl ls

/-- Helper for `natComma`: insert a comma after every third character of a
reversed digit list. -/
def commaRev : List Char → List Char
  | a :: b :: c :: d :: rest => a :: b :: c :: ',' :: commaRev (d :: rest)
  | l => l

/-- Python `f"{n:,}"`: decimal digits grouped in threes by commas. -/
def natComma (n : Nat) : String :=
  String.mk (commaRev (toString n).data.reverse).reverse

/-! ## File loading (src/discord/bot.py lines 113-167, src/telegram/bot.py lines 71-90)

File system access is abstracted as a `FileState`: the file is either missing
or present with some raw content; the loaders below are the pure part of the
Python functions applied to that state. -/

/-- Whether `policy.txt` / `instructions.txt` exists, and its raw content. -/
inductive FileState where
  | missing
  | present (content : String)

/-- `POLICY_MAX_CHARS` (both bots). -/
def POLICY_MAX_CHARS : Nat := 10000

/-- `INSTRUCTIONS_MAX_CHARS` (both bots). -/
def INSTRUCTIONS_MAX_CHARS : Nat := 2000

/-- The keep condition of the loop in `load_policy_file`
(src/discord/bot.py line 127), applied to the stripped line. -/
def discord_policy_keep (line : String) : Bool :=
  pyStartswith (pyLower line) "#policy" || (line ≠ "" && !pyStartswith line "#")

/-- The list `policy_lines` built by `load_policy_file`
(src/discord/bot.py lines 123-128). -/
def load_policy_lines (content : String) : List String :=
  (pySplitNl (pyStrip content)).foldl
    (fun acc l =>
      let line := pyStrip l
      if discord_policy_keep line then acc ++ [line] else acc) []

/-- `load_policy_file` (src/discord/bot.py lines 113-141).  The first argument
models the module global `USE_POLICY_FILE` (shipped value `true`). -/
def load_policy_file (use_policy_file : Bool) (fs : FileState) :
    Option String × Option String :=
  if use_policy_file = false then (none, none)
  else
    match fs with
    | .missing => (none, some "⚠️ policy.txt not found")
    | .present raw =>
      let content := joinNl (load_policy_lines raw)
      if content = "" then (none, none)
      else if content.length > POLICY_MAX_CHARS then
        (some (pyTake content POLICY_MAX_CHARS),
         some ("⚠️ policy.txt exceeds " ++ natComma POLICY_MAX_CHARS
              ++ " character limit (" ++ natComma content.length
              ++ " chars) - truncated"))
      else (some content, none)

/-- The filter condition of the comprehension in `load_instructions_file`
(src/discord/bot.py line 155); the original line is kept, the condition is on
its stripped form.  Note: there is no `#policy` exception here. -/
def discord_instructions_keep (l : String) : Bool :=
  pyStrip l ≠ "" && !pyStartswith (pyStrip l) "#"

/-- The list `instruction_lines` built by `load_instructions_file`
(src/discord/bot.py line 155). -/
def load_instructions_lines (content : String) : List String :=
  (pySplitNl (pyStrip content)).filter discord_instructions_keep

/-- `load_instructions_file` (src/discord/bot.py lines 144-167).  The first
argument models the module global `USE_INSTRUCTIONS_FILE` (shipped `true`). -/
def load_instructions_file (use_instructions_file : Bool) (fs : FileState) :
    Option String × Option String :=
  if use_instructions_file = false then (none, none)
  else
    match fs with
    | .missing => (none, some "⚠️ instructions.txt not found")
    | .present raw =>
      let content := joinNl (load_instructions_lines raw)
      if content = "" then (none, none)
      else if content.length > INSTRUCTIONS_MAX_CHARS then
        (some (pyTake content INSTRUCTIONS_MAX_CHARS),
         some ("⚠️ instructions.txt exceeds " ++ natComma INSTRUCTIONS_MAX_CHARS
              ++ " character limit (" ++ natComma content.length
              ++ " chars) - truncated"))
      else (some content, none)

/-- The keep condition of the loop in Telegram `load_text_file`
(src/telegram/bot.py lines 79-81), applied to the stripped line. -/
def telegram_line_keep (line : String) : Bool :=
  line ≠ "" && (pyStartswith (pyLower line) "#policy" || !pyStartswith line "#")

/-- The list `lines` built by Telegram `load_text_file`
(src/telegram/bot.py lines 76-81). -/
def telegram_kept_lines (content : String) : List String :=
  (pySplitNl (pyStrip content)).foldl
    (fun acc l =>
      let line := pyStrip l
      if line = "" then acc
      else if pyStartswith (pyLower line) "#policy" || !pyStartswith line "#" then
        acc ++ [line]
      else acc) []

/-- Telegram `load_text_file` (src/telegram/bot.py lines 71-90); `name` is
`path.name`, used only in the missing-file warning. -/
def load_text_file (name : String) (max_chars : Nat) (fs : FileState) :
    Option String × Option String :=
  match fs with
  | .missing => (none, some ("File not found: " ++ name))
  | .present raw =>
    let content := joinNl (telegram_kept_lines raw)
    if content = "" then (none, none)
    else if content.length > max_chars then
      (some (pyTake content max_chars),
       some ("Truncated to " ++ toString max_chars ++ " chars"))
    else (some content, none)

/-! ## Severity ordering (src/discord/bot.py lines 194-198, src/telegram/bot.py lines 250-251) -/

/-- `SEVERITY_ORDER.get(s, 0)` for the dict on src/discord/bot.py line 194. -/
def SEVERITY_ORDER_get (s : String) : Nat :=
  if s = "LOW" then 1
  else if s = "MEDIUM" then 2
  else if s = "HIGH" then 3
  else if s = "CRITICAL" then 4
  else 0

/-- `severity_meets_threshold` (src/discord/bot.py lines 197-198). -/
def severity_meets_threshold (severity min_severity : String) : Bool :=
  decide (SEVERITY_ORDER_get severity ≥ SEVERITY_ORDER_get min_severity)

/-- `severity_levels.get(s, 0)` for the dict on src/telegram/bot.py line 250. -/
def telegram_severity_levels_get (s : String) : Nat :=
  if s = "LOW" then 1
  else if s = "MEDIUM" then 2
  else if s = "HIGH" then 3
  else if s = "CRITICAL" then 4
  else 0

/-- The inline comparison on src/telegram/bot.py line 251: true when the
handler skips because the severity is below the configured minimum. -/
def telegram_severity_below (severity min_severity : String) : Bool :=
  decide (telegram_severity_levels_get severity < telegram_severity_levels_get min_severity)

/-- Modelled from the spec: the rank function named by the claims, mapping
LOW to 1, MEDIUM to 2, HIGH to 3, CRITICAL to 4 and every other string to 0. -/
def claimRank (s : String) : Nat :=
  if s = "LOW" then 1
  else if s = "MEDIUM" then 2
  else if s = "HIGH" then 3
  else if s = "CRITICAL" then 4
  else 0

/-! ## Policy/instructions merge in `call_nova_moderation` (src/discord/bot.py lines 259-310) -/

/-- Module global `USE_POLICY_FILE` (src/discord/bot.py line 38). -/
def USE_POLICY_FILE : Bool := true

/-- Module global `USE_INSTRUCTIONS_FILE` (src/discord/bot.py line 39). -/
def USE_INSTRUCTIONS_FILE : Bool := true

/-- The conditional truncation applied by `call_nova_moderation`
(src/discord/bot.py lines 296-299): `if s and len(s) > cap: s = s[:cap]`. -/
def py_truncate (s : String) (cap : Nat) : String :=
  if s ≠ "" ∧ s.length > cap then pyTake s cap else s

/-- The values `final_policy`, `final_instructions` and `sources` computed by
`call_nova_moderation` just before the payload is built. -/
structure MergeResult where
  final_policy : String
  final_instructions : String
  sources : List String
deriving DecidableEq

/-- The merge part of `call_nova_moderation` (src/discord/bot.py lines
266-299).  `use_policy_file` / `use_instructions_file` are the function
parameters; `file_policy` / `file_instructions` model the first components
returned by `load_policy_file` / `load_instructions_file`; `policy` /
`instructions` are the inline override parameters (Python default `None`). -/
def call_nova_merge (use_policy_file use_instructions_file : Bool)
    (file_policy file_instructions policy instructions : Option String) :
    MergeResult :=
  let s0 : List String := []
  let p1 : String × List String :=
    if use_policy_file && USE_POLICY_FILE then
      if pyTruthy file_policy then (file_policy.getD "", s0 ++ ["📄 policy.txt"])
      else ("", s0)
    else ("", s0)
  let q1 : String × List String :=
    if use_instructions_file && USE_INSTRUCTIONS_FILE then
      if pyTruthy file_instructions then
        (file_instructions.getD "", p1.2 ++ ["📄 instructions.txt"])
      else ("", p1.2)
    else ("", p1.2)
  let p2 : String × List String :=
    if pyTruthy policy then
      (if p1.1 ≠ "" then p1.1 ++ "\n" ++ policy.getD "" else policy.getD "",
       q1.2 ++ ["💬 inline policy"])
    else (p1.1, q1.2)
  let q2 : String × List String :=
    if pyTruthy instructions then
      (if q1.1 ≠ "" then q1.1 ++ "\n" ++ instructions.getD ""
       else instructions.getD "",
       p2.2 ++ ["💬 inline instructions"])
    else (q1.1, p2.2)
  let fp := py_truncate p2.1 POLICY_MAX_CHARS
  let fi := py_truncate q2.1 INSTRUCTIONS_MAX_CHARS
  ⟨fp, fi, q2.2⟩

/-- Modelled from the spec: "file content (if enabled) is concatenated with
inline override content using a newline separator, file content first"; a
piece is used only when truthy. -/
def claimMergeJoin (filePart inlinePart : Option String) : String :=
  if pyTruthy filePart then
    if pyTruthy inlinePart then filePart.getD "" ++ "\n" ++ inlinePart.getD ""
    else filePart.getD ""
  else if pyTruthy inlinePart then inlinePart.getD ""
  else ""

/-- Modelled from the spec: the provenance list in the fixed order
file-policy, file-instructions, inline-policy, inline-instructions, with
exactly the sources actually used. -/
def claimSources (filePolicyUsed fileInstructionsUsed inlinePolicyUsed inlineInstructionsUsed : Bool) :
    List String :=
  (if filePolicyUsed then ["📄 policy.txt"] else [])
  ++ (if fileInstructionsUsed then ["📄 instructions.txt"] else [])
  ++ (if inlinePolicyUsed then ["💬 inline policy"] else [])
  ++ (if inlineInstructionsUsed then ["💬 inline instructions"] else [])

/-! ## API response handling (src/discord/bot.py lines 312-340, src/telegram/bot.py lines 120-133) -/

/-- The fields of the Python dict a moderation call works with, each accessed
with `dict.get`: an absent key is `none` (for `error`, absent means falsy). -/
structure ResultDict where
  error : Bool
  status : Option String
  severity : Option String
  bannedDays : Option Int
  statusCode : Option Nat
  message : Option String
deriving DecidableEq

/-- What a call to `call_nova_moderation` does from the point of view of its
caller: return a dict, or raise an exception. -/
inductive CallResult where
  | ok (r : ResultDict)
  | exn
deriving DecidableEq

/-- Response handling of the Discord `call_nova_moderation`
(src/discord/bot.py lines 336-340): on HTTP 200 the body is fed to
`json.loads`, whose failure raises (modelled by `parsed = none` giving
`exn`); otherwise a dict with `error`, `status_code` and `message` (the raw
body) is returned. -/
def discord_call_result (status : Nat) (parsed : Option ResultDict) (raw : String) :
    CallResult :=
  if status = 200 then
    match parsed with
    | some r => .ok r
    | none => .exn
  else
    .ok { error := true, status := none, severity := none, bannedDays := none,
          statusCode := some status, message := some raw }

/-- Response handling of the Telegram `call_nova_moderation`
(src/telegram/bot.py lines 130-133): same, except the error dict carries only
`error` and `message` (no `status_code`). -/
def telegram_call_result (status : Nat) (parsed : Option ResultDict) (raw : String) :
    CallResult :=
  if status = 200 then
    match parsed with
    | some r => .ok r
    | none => .exn
  else
    .ok { error := true, status := none, severity := none, bannedDays := none,
          statusCode := none, message := some raw }

/-! ## Auto-moderation decision (src/discord/bot.py lines 599-848, src/telegram/bot.py lines 220-328) -/

/-- The Discord module configuration constants read by `on_message`. -/
structure DiscordConfig where
  AUTO_MODERATE_MESSAGES : Bool
  AUTO_MODERATE_ACTION : String
  AUTO_MODERATE_DEFAULT_TIMEOUT_DAYS : Int
  AUTO_MODERATE_MAX_TIMEOUT_DAYS : Int
  AUTO_MODERATE_MIN_SEVERITY : String
  AUTO_MODERATE_IGNORE_BOTS : Bool
  AUTO_MODERATE_EXCLUDED_CHANNELS : List Nat
  AUTO_MODERATE_INCLUDED_CHANNELS : List Nat
  AUTO_MODERATE_BYPASS_ROLES : List Nat
  ALLOWED_GUILD_IDS : List Nat
deriving DecidableEq

/-- The shipped values of the Discord constants
(src/discord/bot.py lines 54-106). -/
def discordDefaultConfig : DiscordConfig where
  AUTO_MODERATE_MESSAGES := true
  AUTO_MODERATE_ACTION := "delete_and_warn"
  AUTO_MODERATE_DEFAULT_TIMEOUT_DAYS := 1
  AUTO_MODERATE_MAX_TIMEOUT_DAYS := 28
  AUTO_MODERATE_MIN_SEVERITY := "LOW"
  AUTO_MODERATE_IGNORE_BOTS := true
  AUTO_MODERATE_EXCLUDED_CHANNELS := []
  AUTO_MODERATE_INCLUDED_CHANNELS := []
  AUTO_MODERATE_BYPASS_ROLES := []
  ALLOWED_GUILD_IDS := []

/-- The parts of a Discord message event read by `on_message`.
`authorRoleIds` is `none` when the author object has no `roles` attribute
(the `hasattr` check on src/discord/bot.py line 632). -/
structure DiscordMsg where
  authorIsBot : Bool
  inGuild : Bool
  guildId : Nat
  channelId : Nat
  content : String
  authorRoleIds : Option (List Nat)
deriving DecidableEq

/-- The enforcement the handler selects: the configured action string, and
for the timeout action the computed duration in days. -/
structure Enforcement where
  action : String
  timeoutDays : Option Int
deriving DecidableEq

/-- Outcome of one auto-moderation handler run: whether the moderation API
was called, and which enforcement (if any) was selected. -/
structure ModOutcome where
  calledApi : Bool
  action : Option Enforcement
deriving DecidableEq

/-- The timeout-duration computation of the Discord timeout branch
(src/discord/bot.py lines 735-739): `result.get("banned_days")` is tested for
truthiness (absent or zero falls back to the default, which is not capped). -/
def discord_timeout_days (cfg : DiscordConfig) (banned_days : Option Int) : Int :=
  match banned_days with
  | some n =>
    if n ≠ 0 then min n cfg.AUTO_MODERATE_MAX_TIMEOUT_DAYS
    else cfg.AUTO_MODERATE_DEFAULT_TIMEOUT_DAYS
  | none => cfg.AUTO_MODERATE_DEFAULT_TIMEOUT_DAYS

/-- The verdict part of the Discord `on_message` handler
(src/discord/bot.py lines 645-661): error flag, status and severity gates,
then the configured action. -/
def discord_decide (cfg : DiscordConfig) (r : ResultDict) : Option Enforcement :=
  if r.error then none
  else
    let status := r.status.getD "ALLOWED"
    let severity := r.severity.getD "LOW"
    if status ≠ "BLOCKED" ∧ status ≠ "DISALLOWED" then none
    else if severity_meets_threshold severity cfg.AUTO_MODERATE_MIN_SEVERITY = false then none
    else some { action := cfg.AUTO_MODERATE_ACTION,
                timeoutDays :=
                  if cfg.AUTO_MODERATE_ACTION = "timeout"
                  then some (discord_timeout_days cfg r.bannedDays)
                  else none }

/-- The Discord `on_message` auto-moderation handler
(src/discord/bot.py lines 599-661): scope gates in source order, then the
API call and the verdict gates. -/
def discord_on_message (cfg : DiscordConfig) (msg : DiscordMsg) (call : CallResult) :
    ModOutcome :=
  if ¬ cfg.AUTO_MODERATE_MESSAGES then ⟨false, none⟩
  else if cfg.AUTO_MODERATE_IGNORE_BOTS ∧ msg.authorIsBot then ⟨false, none⟩
  else if ¬ msg.inGuild then ⟨false, none⟩
  else if msg.content = "" then ⟨false, none⟩
  else if cfg.ALLOWED_GUILD_IDS ≠ [] ∧ msg.guildId ∉ cfg.ALLOWED_GUILD_IDS then ⟨false, none⟩
  else if cfg.AUTO_MODERATE_INCLUDED_CHANNELS ≠ [] ∧
          msg.channelId ∉ cfg.AUTO_MODERATE_INCLUDED_CHANNELS then ⟨false, none⟩
  else if cfg.AUTO_MODERATE_INCLUDED_CHANNELS = [] ∧
          msg.channelId ∈ cfg.AUTO_MODERATE_EXCLUDED_CHANNELS then ⟨false, none⟩
  else if cfg.AUTO_MODERATE_BYPASS_ROLES ≠ [] ∧ msg.authorRoleIds.isSome ∧
          cfg.AUTO_MODERATE_BYPASS_ROLES.any
            (fun roleId => (msg.authorRoleIds.getD []).contains roleId) then ⟨false, none⟩
  else
    match call with
    | .exn => ⟨true, none⟩
    | .ok r => ⟨true, discord_decide cfg r⟩

/-- The Telegram module configuration constants read by `handle_message`. -/
structure TelegramConfig where
  AUTO_MODERATE_MESSAGES : Bool
  AUTO_MODERATE_ACTION : String
  AUTO_MODERATE_MIN_SEVERITY : String
  AUTO_MODERATE_DEFAULT_TIMEOUT_DAYS : Int
  AUTO_MODERATE_MAX_TIMEOUT_DAYS : Int
  ALLOWED_CHAT_IDS : List Int
deriving DecidableEq

/-- The shipped values of the Telegram constants
(src/telegram/bot.py lines 55-65). -/
def telegramDefaultConfig : TelegramConfig where
  AUTO_MODERATE_MESSAGES := true
  AUTO_MODERATE_ACTION := "delete_and_warn"
  AUTO_MODERATE_MIN_SEVERITY := "LOW"
  AUTO_MODERATE_DEFAULT_TIMEOUT_DAYS := 1
  AUTO_MODERATE_MAX_TIMEOUT_DAYS := 28
  ALLOWED_CHAT_IDS := []

/-- The parts of a Telegram update read by `handle_message`; `hasMessage`
models `update.message` being present. -/
structure TelegramMsg where
  hasMessage : Bool
  text : String
  chatId : Int
deriving DecidableEq

/-- The timeout-duration computation of the Telegram timeout branch
(src/telegram/bot.py lines 294-295): `result.get("banned_days", default)`
then capped by `min` (a present zero or negative value is kept). -/
def telegram_timeout_days (cfg : TelegramConfig) (banned_days : Option Int) : Int :=
  min (banned_days.getD cfg.AUTO_MODERATE_DEFAULT_TIMEOUT_DAYS)
      cfg.AUTO_MODERATE_MAX_TIMEOUT_DAYS

/-- The verdict part of the Telegram `handle_message` handler
(src/telegram/bot.py lines 239-254). -/
def telegram_decide (cfg : TelegramConfig) (r : ResultDict) : Option Enforcement :=
  if r.error then none
  else
    let status := r.status.getD "ALLOWED"
    let severity := r.severity.getD "LOW"
    if status ≠ "BLOCKED" ∧ status ≠ "DISALLOWED" then none
    else if telegram_severity_below severity cfg.AUTO_MODERATE_MIN_SEVERITY then none
    else some { action := cfg.AUTO_MODERATE_ACTION,
                timeoutDays :=
                  if cfg.AUTO_MODERATE_ACTION = "timeout"
                  then some (telegram_timeout_days cfg r.bannedDays)
                  else none }

/-- The Telegram `handle_message` auto-moderation handler
(src/telegram/bot.py lines 220-254).  An exception raised by the API call
(`CallResult.exn`) propagates out of the handler before any action. -/
def telegram_handle_message (cfg : TelegramConfig) (msg : TelegramMsg) (call : CallResult) :
    ModOutcome :=
  if ¬ cfg.AUTO_MODERATE_MESSAGES then ⟨false, none⟩
  else if ¬ msg.hasMessage ∨ msg.text = "" then ⟨false, none⟩
  else if cfg.ALLOWED_CHAT_IDS ≠ [] ∧ msg.chatId ∉ cfg.ALLOWED_CHAT_IDS then ⟨false, none⟩
  else
    match call with
    | .exn => ⟨true, none⟩
    | .ok r => ⟨true, telegram_decide cfg r⟩

/-- The scope rules of the Discord handler, as the claims describe them:
bot-ignore, guild allow-list, channel include/exclude filter, bypass roles.
The exclude-list disjunct holds only when the include-list is empty, matching
the `elif` on src/discord/bot.py line 628. -/
def discordScopeExcluded (cfg : DiscordConfig) (msg : DiscordMsg) : Prop :=
  (cfg.AUTO_MODERATE_IGNORE_BOTS ∧ msg.authorIsBot) ∨
  (cfg.ALLOWED_GUILD_IDS ≠ [] ∧ msg.guildId ∉ cfg.ALLOWED_GUILD_IDS) ∨
  (cfg.AUTO_MODERATE_INCLUDED_CHANNELS ≠ [] ∧
    msg.channelId ∉ cfg.AUTO_MODERATE_INCLUDED_CHANNELS) ∨
  (cfg.AUTO_MODERATE_INCLUDED_CHANNELS = [] ∧
    msg.channelId ∈ cfg.AUTO_MODERATE_EXCLUDED_CHANNELS) ∨
  (msg.authorRoleIds.isSome ∧
    ∃ r ∈ cfg.AUTO_MODERATE_BYPASS_ROLES, r ∈ msg.authorRoleIds.getD [])

instance (cfg : DiscordConfig) (msg : DiscordMsg) :
    Decidable (discordScopeExcluded cfg msg) := by
  unfold discordScopeExcluded
  infer_instance

/-- Severity extraction of `create_moderation_embed`
(src/discord/bot.py line 404): display formatting defaults to UNKNOWN. -/
def embed_severity (r : ResultDict) : String :=
  r.severity.getD "UNKNOWN"

/-- `banned_days` extraction of `create_moderation_embed`
(src/discord/bot.py line 410). -/
def embed_banned_days (r : ResultDict) : Option Int :=
  r.bannedDays

/-- Modelled from the spec: the claimed timeout formula
`min(verdict.banned_days or config.default_timeout_days, config.max_timeout_days)`
at the shipped configuration (default 1, max 28), with Python `or`
truthiness (0 and absent both fall back to the default). -/
def claimTimeoutDays (banned_days : Option Int) : Int :=
  min (match banned_days with
       | some n => if n ≠ 0 then n else 1
       | none => 1) 28

/-! ## Helper lemmas -/

/-- A line starting (case-insensitively) with the `#policy` marker is not
empty. -/
theorem marker_ne_empty (line : String)
    (h : pyStartswith (pyLower line) "#policy" = true) : line ≠ "" := by
  intro he
  rw [he] at h
  exact absurd h (by decide)

/-- The accumulator loop of `load_policy_file` is the filter of the stripped
lines by the keep condition. -/
theorem policy_fold_eq (ls acc : List String) :
    ls.foldl
      (fun a l =>
        let line := pyStrip l
        if discord_policy_keep line then a ++ [line] else a) acc
      = acc ++ (ls.map pyStrip).filter discord_policy_keep := by
  induction ls generalizing acc with
  | nil => simp
  | cons x t ih =>
    simp only [List.foldl_cons, List.map_cons, List.filter_cons]
    by_cases h : discord_policy_keep (pyStrip x)
    · simp only [h, if_true, ih, List.append_assoc, List.singleton_append]
    · simp only [h, if_false, ih, Bool.false_eq_true]

/-- The accumulator loop of Telegram `load_text_file` is the filter of the
stripped lines by `telegram_line_keep`. -/
theorem telegram_fold_eq (ls acc : List String) :
    ls.foldl
      (fun a l =>
        let line := pyStrip l
        if line = "" then a
        else if pyStartswith (pyLower line) "#policy" || !pyStartswith line "#" then
          a ++ [line]
        else a) acc
      = acc ++ (ls.map pyStrip).filter telegram_line_keep := by
  induction ls generalizing acc with
  | nil => simp
  | cons x t ih =>
    simp only [List.foldl_cons, List.map_cons, List.filter_cons]
    by_cases h0 : pyStrip x = ""
    · simp only [h0, if_true, ih, telegram_line_keep]
      simp [h0]
    · by_cases hc : (pyStartswith (pyLower (pyStrip x)) "#policy"
          || !pyStartswith (pyStrip x) "#") = true
      · simp only [h0, if_false, hc, if_true, ih, telegram_line_keep,
          List.append_assoc, List.singleton_append]
        simp [h0, hc]
      · simp only [h0, if_false, hc, ih, telegram_line_keep]
        simp [h0, hc]

/-- `load_policy_lines` keeps exactly the stripped lines satisfying the keep
condition. -/
theorem load_policy_lines_eq (c : String) :
    load_policy_lines c
      = ((pySplitNl (pyStrip c)).map pyStrip).filter discord_policy_keep := by
  unfold load_policy_lines
  simpa using policy_fold_eq (pySplitNl (pyStrip c)) []

/-- `telegram_kept_lines` keeps exactly the stripped lines satisfying
`telegram_line_keep`. -/
theorem telegram_kept_lines_eq (c : String) :
    telegram_kept_lines c
      = ((pySplitNl (pyStrip c)).map pyStrip).filter telegram_line_keep := by
  unfold telegram_kept_lines
  simpa using telegram_fold_eq (pySplitNl (pyStrip c)) []

/-- Any run of the Discord handler that returns at one of its guards ends
with no API call and no action. -/
theorem discord_skip (cfg : DiscordConfig) (msg : DiscordMsg) (call : CallResult)
    (h : ¬ cfg.AUTO_MODERATE_MESSAGES ∨
         (cfg.AUTO_MODERATE_IGNORE_BOTS ∧ msg.authorIsBot) ∨
         ¬ msg.inGuild ∨
         msg.content = "" ∨
         (cfg.ALLOWED_GUILD_IDS ≠ [] ∧ msg.guildId ∉ cfg.ALLOWED_GUILD_IDS) ∨
         (cfg.AUTO_MODERATE_INCLUDED_CHANNELS ≠ [] ∧
           msg.channelId ∉ cfg.AUTO_MODERATE_INCLUDED_CHANNELS) ∨
         (cfg.AUTO_MODERATE_INCLUDED_CHANNELS = [] ∧
           msg.channelId ∈ cfg.AUTO_MODERATE_EXCLUDED_CHANNELS) ∨
         (cfg.AUTO_MODERATE_BYPASS_ROLES ≠ [] ∧ msg.authorRoleIds.isSome ∧
           cfg.AUTO_MODERATE_BYPASS_ROLES.any
             (fun roleId => (msg.authorRoleIds.getD []).contains roleId))) :
    discord_on_message cfg msg call = ⟨false, none⟩ := by
  unfold discord_on_message
  split_ifs with h1 h2 h3 h4 h5 h6 h7 h8 <;> try rfl
  exfalso
  rcases h with h | h | h | h | h | h | h | h
  · exact h h1
  · exact h2 h
  · exact h h3
  · exact h4 h
  · exact h5 h
  · exact h6 h
  · exact h7 h
  · exact h8 h

/-- Any run of the Telegram handler that returns at one of its guards ends
with no API call and no action. -/
theorem telegram_skip (cfg : TelegramConfig) (msg : TelegramMsg) (call : CallResult)
    (h : ¬ cfg.AUTO_MODERATE_MESSAGES ∨
         (¬ msg.hasMessage ∨ msg.text = "") ∨
         (cfg.ALLOWED_CHAT_IDS ≠ [] ∧ msg.chatId ∉ cfg.ALLOWED_CHAT_IDS)) :
    telegram_handle_message cfg msg call = ⟨false, none⟩ := by
  unfold telegram_handle_message
  split_ifs with h1 h2 h3 <;> try rfl
  exfalso
  rcases h with h | h | h
  · exact h h1
  · exact h2 h
  · exact h3 h

/-- An error dict (truthy `error` key) never produces an action, in either
post-call decision. -/
theorem decide_error_none (cfg : DiscordConfig) (tcfg : TelegramConfig)
    (r : ResultDict) (h : r.error = true) :
    discord_decide cfg r = none ∧ telegram_decide tcfg r = none := by
  constructor <;> simp [discord_decide, telegram_decide, h]

/-- The Discord handler takes no action when the call raises or returns an
error dict. -/
theorem discord_no_action_on_error (cfg : DiscordConfig) (msg : DiscordMsg)
    (r : ResultDict) (h : r.error = true) :
    (discord_on_message cfg msg (.ok r)).action = none ∧
    (discord_on_message cfg msg .exn).action = none := by
  constructor <;>
    · unfold discord_on_message
      split_ifs <;> simp [discord_decide, h]

/-- The Telegram handler takes no action when the call raises or returns an
error dict. -/
theorem telegram_no_action_on_error (cfg : TelegramConfig) (msg : TelegramMsg)
    (r : ResultDict) (h : r.error = true) :
    (telegram_handle_message cfg msg (.ok r)).action = none ∧
    (telegram_handle_message cfg msg .exn).action = none := by
  constructor <;>
    · unfold telegram_handle_message
      split_ifs <;> simp [telegram_decide, h]

/-! ## Claim C3 -/

/-- C3: for every pair of severity strings, `severity_meets_threshold s m` is
true iff `rank s ≥ rank m` where rank maps LOW/MEDIUM/HIGH/CRITICAL to
1/2/3/4 and everything else to 0; and the Telegram inline comparison (the
skip condition) is exactly the negation of the same predicate. -/
theorem C3_rank_iff (s m : String) :
    (severity_meets_threshold s m = true ↔ claimRank s ≥ claimRank m) ∧
    (telegram_severity_below s m = !severity_meets_threshold s m) := by
  have hc : claimRank = SEVERITY_ORDER_get := rfl
  have ht : telegram_severity_levels_get = SEVERITY_ORDER_get := rfl
  constructor
  · rw [hc]
    simp [severity_meets_threshold]
  · unfold telegram_severity_below severity_meets_threshold
    rw [ht]
    rcases Nat.lt_or_ge (SEVERITY_ORDER_get s) (SEVERITY_ORDER_get m) with h | h
    · simp [h, Nat.not_le.mpr h]
    · simp [Nat.not_lt.mpr h, h]

/-- Witness for C3 at a concrete pair of severities. -/
theorem C3_rank_iff_witness :
    (severity_meets_threshold "HIGH" "MEDIUM" = true ↔
      claimRank "HIGH" ≥ claimRank "MEDIUM") ∧
    (telegram_severity_below "HIGH" "MEDIUM"
      = !severity_meets_threshold "HIGH" "MEDIUM") :=
  C3_rank_iff "HIGH" "MEDIUM"

/-! ## Claim C6 -/

/-- C6 counterexample: when the configured minimum-severity string is itself
unrecognized, an unrecognized severity is NOT rejected — both rank 0, and
0 ≥ 0, so the check passes (and the Telegram skip condition is false). -/
theorem C6_counterexample :
    severity_meets_threshold "UNKNOWN" "UNKNOWN" = true ∧
    telegram_severity_below "UNKNOWN" "UNKNOWN" = false := by
  decide

/-- C6 (amended): for every severity string `s` outside
LOW/MEDIUM/HIGH/CRITICAL and every minimum-severity threshold `m` that IS one
of those four values, the check rejects `s` in both bots; when the threshold
itself is unrecognized (rank 0) every severity passes instead. -/
theorem C6_amended (s m : String)
    (hm : m = "LOW" ∨ m = "MEDIUM" ∨ m = "HIGH" ∨ m = "CRITICAL")
    (h1 : s ≠ "LOW") (h2 : s ≠ "MEDIUM") (h3 : s ≠ "HIGH") (h4 : s ≠ "CRITICAL") :
    severity_meets_threshold s m = false ∧ telegram_severity_below s m = true := by
  have hs : SEVERITY_ORDER_get s = 0 := by
    unfold SEVERITY_ORDER_get
    simp [h1, h2, h3, h4]
  have hm1 : 1 ≤ SEVERITY_ORDER_get m := by
    rcases hm with h | h | h | h <;> subst h <;> decide
  have ht : telegram_severity_levels_get = SEVERITY_ORDER_get := rfl
  constructor
  · unfold severity_meets_threshold
    rw [hs]
    simp
    omega
  · unfold telegram_severity_below
    rw [ht, hs]
    simp
    omega

/-- Witness for C6 (amended) at a concrete unrecognized severity. -/
theorem C6_amended_witness :
    severity_meets_threshold "UNKNOWN" "LOW" = false ∧
    telegram_severity_below "UNKNOWN" "LOW" = true :=
  C6_amended "UNKNOWN" "LOW" (Or.inl rfl)
    (by decide) (by decide) (by decide) (by decide)

/-! ## Claim C4 -/

/-- C4 counterexample: with the shipped configuration (default 1 day, max
28), a present `banned_days` of 0 gives a Telegram restriction of 0 days
(the claimed formula gives 1), and a negative `banned_days` gives a negative
Discord timeout — both violate the claimed lower bound of 1 day. -/
theorem C4_counterexample :
    telegram_timeout_days telegramDefaultConfig (some 0) = 0 ∧
    claimTimeoutDays (some 0) = 1 ∧
    discord_timeout_days discordDefaultConfig (some (-5)) = -5 ∧
    claimTimeoutDays (some (-5)) = -5 := by
  decide

/-- C4 (amended): at the shipped configuration, the Discord timeout duration
equals the claimed formula `min(banned_days or default, max)`, the Telegram
duration is `min(banned_days if present else default, max)`, both are always
at most `max_timeout_days` (28), and the duration is at least 1 exactly when
`banned_days` is absent or nonnegative (Discord) resp. absent or at least 1
(Telegram); for every verdict that reaches the timeout action, the selected
enforcement carries exactly this duration. -/
theorem C4_amended (bd : Option Int) (r : ResultDict)
    (hr : r.error = false) (hst : r.status = some "BLOCKED")
    (hsev : r.severity = some "HIGH") (hbd : r.bannedDays = bd) :
    discord_timeout_days discordDefaultConfig bd = claimTimeoutDays bd ∧
    telegram_timeout_days telegramDefaultConfig bd
      = min (bd.getD 1) 28 ∧
    discord_timeout_days discordDefaultConfig bd ≤ 28 ∧
    telegram_timeout_days telegramDefaultConfig bd ≤ 28 ∧
    (1 ≤ discord_timeout_days discordDefaultConfig bd ↔
      ∀ n, bd = some n → 0 ≤ n) ∧
    (1 ≤ telegram_timeout_days telegramDefaultConfig bd ↔
      ∀ n, bd = some n → 1 ≤ n) ∧
    discord_decide { discordDefaultConfig with AUTO_MODERATE_ACTION := "timeout" } r
      = some ⟨"timeout", some (discord_timeout_days discordDefaultConfig bd)⟩ ∧
    telegram_decide { telegramDefaultConfig with AUTO_MODERATE_ACTION := "timeout" } r
      = some ⟨"timeout", some (telegram_timeout_days telegramDefaultConfig bd)⟩ := by
  have hdec :
      discord_decide { discordDefaultConfig with AUTO_MODERATE_ACTION := "timeout" } r
        = some ⟨"timeout", some (discord_timeout_days discordDefaultConfig bd)⟩ := by
    simp [discord_decide, hr, hst, hsev, hbd, severity_meets_threshold,
      discordDefaultConfig, SEVERITY_ORDER_get, discord_timeout_days]
  have htdec :
      telegram_decide { telegramDefaultConfig with AUTO_MODERATE_ACTION := "timeout" } r
        = some ⟨"timeout", some (telegram_timeout_days telegramDefaultConfig bd)⟩ := by
    simp [telegram_decide, hr, hst, hsev, hbd, telegram_severity_below,
      telegramDefaultConfig, telegram_severity_levels_get, telegram_timeout_days]
  refine ⟨?_, ?_, ?_, ?_, ?_, ?_, hdec, htdec⟩
  · rcases bd with _ | n
    · decide
    · by_cases hn : n = 0
      · subst hn; decide
      · simp [discord_timeout_days, claimTimeoutDays, discordDefaultConfig, hn]
  · rcases bd with _ | n <;>
      simp [telegram_timeout_days, telegramDefaultConfig]
  · rcases bd with _ | n
    · decide
    · by_cases hn : n = 0
      · subst hn; decide
      · simp only [discord_timeout_days, discordDefaultConfig, hn]
        simp [min_def]
        omega
  · rcases bd with _ | n
    · decide
    · simp only [telegram_timeout_days, telegramDefaultConfig, Option.getD_some]
      simp [min_def]
      omega
  · rcases bd with _ | n
    · simp [discord_timeout_days, discordDefaultConfig]
    · by_cases hn : n = 0
      · subst hn
        simp [discord_timeout_days, discordDefaultConfig]
      · simp only [discord_timeout_days, discordDefaultConfig, hn, if_true, ne_eq,
          not_false_iff]
        constructor
        · intro h k hk
          rw [Option.some.injEq] at hk
          subst hk
          rw [min_def] at h
          split_ifs at h <;> omega
        · intro h
          have hn0 : 0 ≤ n := h n rfl
          rw [min_def]
          split_ifs <;> omega
  · rcases bd with _ | n
    · simp [telegram_timeout_days, telegramDefaultConfig]
    · simp only [telegram_timeout_days, telegramDefaultConfig, Option.getD_some]
      constructor
      · intro h k hk
        rw [Option.some.injEq] at hk
        subst hk
        rw [min_def] at h
        split_ifs at h <;> omega
      · intro h
        have hn1 : 1 ≤ n := h n rfl
        rw [min_def]
        split_ifs <;> omega

/-- Witness for C4 (amended) at `banned_days = 3` on a blocked HIGH verdict
(the worked example of the specification: 3 ≤ 28, so 3 days apply). -/
theorem C4_amended_witness :
    discord_timeout_days discordDefaultConfig (some 3) = claimTimeoutDays (some 3) ∧
    telegram_timeout_days telegramDefaultConfig (some 3)
      = min ((some (3 : Int)).getD 1) 28 ∧
    discord_timeout_days discordDefaultConfig (some 3) ≤ 28 ∧
    telegram_timeout_days telegramDefaultConfig (some 3) ≤ 28 ∧
    (1 ≤ discord_timeout_days discordDefaultConfig (some 3) ↔
      ∀ n, (some (3 : Int)) = some n → 0 ≤ n) ∧
    (1 ≤ telegram_timeout_days telegramDefaultConfig (some 3) ↔
      ∀ n, (some (3 : Int)) = some n → 1 ≤ n) ∧
    discord_decide { discordDefaultConfig with AUTO_MODERATE_ACTION := "timeout" }
        ⟨false, some "BLOCKED", some "HIGH", some 3, none, none⟩
      = some ⟨"timeout", some (discord_timeout_days discordDefaultConfig (some 3))⟩ ∧
    telegram_decide { telegramDefaultConfig with AUTO_MODERATE_ACTION := "timeout" }
        ⟨false, some "BLOCKED", some "HIGH", some 3, none, none⟩
      = some ⟨"timeout", some (telegram_timeout_days telegramDefaultConfig (some 3))⟩ :=
  C4_amended (some 3) ⟨false, some "BLOCKED", some "HIGH", some 3, none, none⟩
    rfl rfl rfl rfl

/-! ## Claim C5 -/

/-- A parsed 200 body with status BLOCKED and no severity field. -/
def blockedNoSeverity : ResultDict :=
  ⟨false, some "BLOCKED", none, none, none, none⟩

/-- C5 counterexample: in the auto-moderation decision path an absent
severity is defaulted to LOW, not to the documented sentinel UNKNOWN — at
the shipped configuration a BLOCKED verdict with no severity field is acted
on in both bots, whereas a severity of UNKNOWN (rank 0) would have been
allowed through. -/
theorem C5_counterexample :
    discord_decide discordDefaultConfig blockedNoSeverity
      = some ⟨"delete_and_warn", none⟩ ∧
    telegram_decide telegramDefaultConfig blockedNoSeverity
      = some ⟨"delete_and_warn", none⟩ ∧
    severity_meets_threshold "UNKNOWN" "LOW" = false ∧
    embed_severity blockedNoSeverity = "UNKNOWN" := by
  decide

/-- C5 (amended): an absent `banned_days` is `None` wherever consumed (and
falls back to the default timeout), and an absent severity defaults to
UNKNOWN in display formatting but to LOW in the auto-moderation decision
path of both bots, where it behaves exactly like an explicit "LOW". -/
theorem C5_amended (r : ResultDict) (cfg : DiscordConfig) (tcfg : TelegramConfig)
    (h : r.severity = none) (hb : r.bannedDays = none) :
    embed_severity r = "UNKNOWN" ∧
    embed_banned_days r = none ∧
    discord_decide cfg r = discord_decide cfg { r with severity := some "LOW" } ∧
    telegram_decide tcfg r = telegram_decide tcfg { r with severity := some "LOW" } ∧
    discord_timeout_days cfg r.bannedDays = cfg.AUTO_MODERATE_DEFAULT_TIMEOUT_DAYS ∧
    telegram_timeout_days tcfg r.bannedDays
      = min tcfg.AUTO_MODERATE_DEFAULT_TIMEOUT_DAYS tcfg.AUTO_MODERATE_MAX_TIMEOUT_DAYS := by
  refine ⟨?_, ?_, ?_, ?_, ?_, ?_⟩ <;>
    simp [embed_severity, embed_banned_days, discord_decide, telegram_decide,
      discord_timeout_days, telegram_timeout_days, h, hb]

/-- Witness for C5 (amended) at a concrete verdict with both fields absent. -/
theorem C5_amended_witness :
    embed_severity ⟨false, some "BLOCKED", none, none, none, none⟩ = "UNKNOWN" ∧
    embed_banned_days ⟨false, some "BLOCKED", none, none, none, none⟩ = none ∧
    discord_decide discordDefaultConfig ⟨false, some "BLOCKED", none, none, none, none⟩
      = discord_decide discordDefaultConfig ⟨false, some "BLOCKED", some "LOW", none, none, none⟩ ∧
    telegram_decide telegramDefaultConfig ⟨false, some "BLOCKED", none, none, none, none⟩
      = telegram_decide telegramDefaultConfig ⟨false, some "BLOCKED", some "LOW", none, none, none⟩ ∧
    discord_timeout_days discordDefaultConfig
        (ResultDict.bannedDays ⟨false, some "BLOCKED", none, none, none, none⟩)
      = discordDefaultConfig.AUTO_MODERATE_DEFAULT_TIMEOUT_DAYS ∧
    telegram_timeout_days telegramDefaultConfig
        (ResultDict.bannedDays ⟨false, some "BLOCKED", none, none, none, none⟩)
      = min telegramDefaultConfig.AUTO_MODERATE_DEFAULT_TIMEOUT_DAYS
          telegramDefaultConfig.AUTO_MODERATE_MAX_TIMEOUT_DAYS :=
  C5_amended ⟨false, some "BLOCKED", none, none, none, none⟩
    discordDefaultConfig telegramDefaultConfig rfl rfl

/-! ## Claim C1 -/

/-- C1 counterexample: a 200 response whose body fails to parse as JSON does
NOT produce an error value — `json.loads` raises, so the call ends in an
exception (in both bots); and the Telegram error dict for a non-200 response
carries only the raw body, with no status code. -/
theorem C1_counterexample :
    discord_call_result 200 none "not json" = CallResult.exn ∧
    telegram_call_result 200 none "not json" = CallResult.exn ∧
    telegram_call_result 500 none "Server Error"
      = CallResult.ok ⟨true, none, none, none, none, some "Server Error"⟩ := by
  decide

/-- C1 (amended): a non-200 response returns a distinguishable error dict —
carrying the status code and the raw body on Discord, only the raw body on
Telegram — while a 200 body that fails to parse raises an exception instead
of returning a value; in every one of these cases the auto-moderation
handlers take no action on the message. -/
theorem C1_amended (status : Nat) (parsed : Option ResultDict) (raw : String)
    (cfg : DiscordConfig) (msg : DiscordMsg)
    (tcfg : TelegramConfig) (tmsg : TelegramMsg)
    (hs : status ≠ 200) :
    discord_call_result status parsed raw
      = CallResult.ok ⟨true, none, none, none, some status, some raw⟩ ∧
    telegram_call_result status parsed raw
      = CallResult.ok ⟨true, none, none, none, none, some raw⟩ ∧
    discord_call_result 200 none raw = CallResult.exn ∧
    telegram_call_result 200 none raw = CallResult.exn ∧
    (discord_on_message cfg msg (discord_call_result status parsed raw)).action = none ∧
    (discord_on_message cfg msg CallResult.exn).action = none ∧
    (telegram_handle_message tcfg tmsg (telegram_call_result status parsed raw)).action = none ∧
    (telegram_handle_message tcfg tmsg CallResult.exn).action = none := by
  have hd : discord_call_result status parsed raw
      = CallResult.ok ⟨true, none, none, none, some status, some raw⟩ := by
    simp [discord_call_result, hs]
  have htl : telegram_call_result status parsed raw
      = CallResult.ok ⟨true, none, none, none, none, some raw⟩ := by
    simp [telegram_call_result, hs]
  refine ⟨hd, htl, by simp [discord_call_result], by simp [telegram_call_result],
    ?_, ?_, ?_, ?_⟩
  · rw [hd]
    exact (discord_no_action_on_error cfg msg _ rfl).1
  · exact (discord_no_action_on_error cfg msg ⟨true, none, none, none, none, none⟩ rfl).2
  · rw [htl]
    exact (telegram_no_action_on_error tcfg tmsg _ rfl).1
  · exact (telegram_no_action_on_error tcfg tmsg ⟨true, none, none, none, none, none⟩ rfl).2

/-- Witness for C1 (amended) at an HTTP 500 response. -/
theorem C1_amended_witness :
    discord_call_result 500 none "oops"
      = CallResult.ok ⟨true, none, none, none, some 500, some "oops"⟩ ∧
    telegram_call_result 500 none "oops"
      = CallResult.ok ⟨true, none, none, none, none, some "oops"⟩ ∧
    discord_call_result 200 none "oops" = CallResult.exn ∧
    telegram_call_result 200 none "oops" = CallResult.exn ∧
    (discord_on_message discordDefaultConfig ⟨false, true, 1, 2, "hi", some []⟩
      (discord_call_result 500 none "oops")).action = none ∧
    (discord_on_message discordDefaultConfig ⟨false, true, 1, 2, "hi", some []⟩
      CallResult.exn).action = none ∧
    (telegram_handle_message telegramDefaultConfig ⟨true, "hi", 9⟩
      (telegram_call_result 500 none "oops")).action = none ∧
    (telegram_handle_message telegramDefaultConfig ⟨true, "hi", 9⟩
      CallResult.exn).action = none :=
  C1_amended 500 none "oops" discordDefaultConfig ⟨false, true, 1, 2, "hi", some []⟩
    telegramDefaultConfig ⟨true, "hi", 9⟩ (by decide)

/-! ## Claim C10 -/

/-- C10: a Discord message that is not in a guild (a direct message) or has
empty text content makes the handler return before the moderation API is
called, with no enforcement action, regardless of configuration and of what
any API call would have returned. -/
theorem C10_dm_or_empty_skip (cfg : DiscordConfig) (msg : DiscordMsg)
    (call : CallResult) (h : msg.inGuild = false ∨ msg.content = "") :
    discord_on_message cfg msg call = ⟨false, none⟩ := by
  apply discord_skip
  rcases h with h | h
  · exact Or.inr (Or.inr (Or.inl (by simp [h])))
  · exact Or.inr (Or.inr (Or.inr (Or.inl h)))

/-- Witness for C10 at a concrete direct message. -/
theorem C10_dm_or_empty_skip_witness :
    discord_on_message discordDefaultConfig ⟨false, false, 0, 2, "hi", some []⟩
      (.ok ⟨false, some "BLOCKED", some "CRITICAL", none, none, none⟩)
      = ⟨false, none⟩ :=
  C10_dm_or_empty_skip discordDefaultConfig ⟨false, false, 0, 2, "hi", some []⟩
    (.ok ⟨false, some "BLOCKED", some "CRITICAL", none, none, none⟩)
    (Or.inl rfl)

/-! ## Claim C2 -/

/-- C2 counterexample: a channel that is inside the (non-empty) include-list
AND inside the exclude-list is still moderated — the exclude-list is only
consulted when the include-list is empty — so "channel inside the
exclude-list" alone does not make the handler select no action: here a
CRITICAL BLOCKED verdict leads to an enforcement despite the channel being
excluded. -/
theorem C2_counterexample :
    (5 ∈ ({ discordDefaultConfig with
        AUTO_MODERATE_INCLUDED_CHANNELS := [5],
        AUTO_MODERATE_EXCLUDED_CHANNELS := [5] } : DiscordConfig).AUTO_MODERATE_EXCLUDED_CHANNELS) ∧
    discord_on_message
      { discordDefaultConfig with
        AUTO_MODERATE_INCLUDED_CHANNELS := [5],
        AUTO_MODERATE_EXCLUDED_CHANNELS := [5] }
      ⟨false, true, 1, 5, "hello", some []⟩
      (.ok ⟨false, some "BLOCKED", some "CRITICAL", none, none, none⟩)
      = ⟨true, some ⟨"delete_and_warn", none⟩⟩ := by
  decide

/-- C2 (amended): the handler selects no action (and never calls the API)
whenever a scope rule excludes the message — author is a bot with
bot-ignoring on, guild allow-list non-empty without the guild, channel
outside a non-empty include-list, channel in the exclude-list while the
include-list is empty, or an author role in the bypass set — regardless of
the call result, hence for any verdict including CRITICAL; on Telegram the
only implemented scope rule is the chat allow-list, with the same effect. -/
theorem C2_amended (cfg : DiscordConfig) (msg : DiscordMsg) (call : CallResult)
    (tcfg : TelegramConfig) (tmsg : TelegramMsg) (tcall : CallResult) :
    (discordScopeExcluded cfg msg →
      discord_on_message cfg msg call = ⟨false, none⟩) ∧
    (tcfg.ALLOWED_CHAT_IDS ≠ [] ∧ tmsg.chatId ∉ tcfg.ALLOWED_CHAT_IDS →
      telegram_handle_message tcfg tmsg tcall = ⟨false, none⟩) := by
  constructor
  · intro h
    apply discord_skip
    rcases h with h | h | h | h | ⟨hsome, r, hrb, hrl⟩
    · exact Or.inr (Or.inl h)
    · exact Or.inr (Or.inr (Or.inr (Or.inr (Or.inl h))))
    · exact Or.inr (Or.inr (Or.inr (Or.inr (Or.inr (Or.inl h)))))
    · exact Or.inr (Or.inr (Or.inr (Or.inr (Or.inr (Or.inr (Or.inl h))))))
    · refine Or.inr (Or.inr (Or.inr (Or.inr (Or.inr (Or.inr (Or.inr
        ⟨List.ne_nil_of_mem hrb, hsome, ?_⟩))))))
      rw [List.any_eq_true]
      exact ⟨r, hrb, List.elem_iff.mpr hrl⟩
  · intro h
    apply telegram_skip
    exact Or.inr (Or.inr h)

/-- Witness for C2 (amended): a bot author under the shipped configuration
(bot-ignore on) on Discord, and a chat outside a non-empty allow-list on
Telegram. -/
theorem C2_amended_witness :
    (discordScopeExcluded discordDefaultConfig ⟨true, true, 1, 2, "hi", some []⟩ ∧
      discord_on_message discordDefaultConfig ⟨true, true, 1, 2, "hi", some []⟩
        (.ok ⟨false, some "BLOCKED", some "CRITICAL", none, none, none⟩)
        = ⟨false, none⟩) ∧
    (({ telegramDefaultConfig with ALLOWED_CHAT_IDS := [5] } : TelegramConfig).ALLOWED_CHAT_IDS ≠ [] ∧
      (7 : Int) ∉ ({ telegramDefaultConfig with ALLOWED_CHAT_IDS := [5] } : TelegramConfig).ALLOWED_CHAT_IDS ∧
      telegram_handle_message { telegramDefaultConfig with ALLOWED_CHAT_IDS := [5] }
        ⟨true, "hi", 7⟩
        (.ok ⟨false, some "BLOCKED", some "CRITICAL", none, none, none⟩)
        = ⟨false, none⟩) :=
  ⟨⟨by decide,
    (C2_amended discordDefaultConfig ⟨true, true, 1, 2, "hi", some []⟩
      (.ok ⟨false, some "BLOCKED", some "CRITICAL", none, none, none⟩)
      telegramDefaultConfig ⟨true, "hi", 7⟩ CallResult.exn).1 (by decide)⟩,
   by decide, by decide,
    (C2_amended discordDefaultConfig ⟨true, true, 1, 2, "hi", some []⟩
      CallResult.exn
      { telegramDefaultConfig with ALLOWED_CHAT_IDS := [5] } ⟨true, "hi", 7⟩
      (.ok ⟨false, some "BLOCKED", some "CRITICAL", none, none, none⟩)).2
      ⟨by decide, by decide⟩⟩

/-! ## Claim C9 -/

/-- C9: a file that exists but whose content is empty after stripping blank
and comment lines loads as `(none, none)` — no content and no warning, the
same as a disabled loader — whereas a missing file loads as `(none, some
warning)`; this holds for both Discord loaders and the Telegram loader. -/
theorem C9_empty_vs_missing (c : String)
    (h1 : joinNl (load_policy_lines c) = "")
    (h2 : joinNl (load_instructions_lines c) = "")
    (h3 : joinNl (telegram_kept_lines c) = "") :
    load_policy_file true (.present c) = (none, none) ∧
    load_instructions_file true (.present c) = (none, none) ∧
    load_text_file "policy.txt" POLICY_MAX_CHARS (.present c) = (none, none) ∧
    load_text_file "instructions.txt" INSTRUCTIONS_MAX_CHARS (.present c) = (none, none) ∧
    load_policy_file true .missing = (none, some "⚠️ policy.txt not found") ∧
    load_instructions_file true .missing = (none, some "⚠️ instructions.txt not found") ∧
    load_text_file "policy.txt" POLICY_MAX_CHARS .missing
      = (none, some "File not found: policy.txt") ∧
    load_text_file "instructions.txt" INSTRUCTIONS_MAX_CHARS .missing
      = (none, some "File not found: instructions.txt") ∧
    (∀ fs, load_policy_file false fs = (none, none)) ∧
    (∀ fs, load_instructions_file false fs = (none, none)) := by
  refine ⟨?_, ?_, ?_, ?_, by decide, by decide, by decide, by decide,
    fun fs => rfl, fun fs => rfl⟩
  · simp [load_policy_file, h1]
  · simp [load_instructions_file, h2]
  · simp [load_text_file, h3]
  · simp [load_text_file, h3]

/-- Witness for C9 at a file containing only comments and blank lines. -/
theorem C9_empty_vs_missing_witness :
    load_policy_file true (.present "# a comment\n\n# another") = (none, none) ∧
    load_instructions_file true (.present "# a comment\n\n# another") = (none, none) ∧
    load_text_file "policy.txt" POLICY_MAX_CHARS (.present "# a comment\n\n# another")
      = (none, none) ∧
    load_text_file "instructions.txt" INSTRUCTIONS_MAX_CHARS
        (.present "# a comment\n\n# another") = (none, none) ∧
    load_policy_file true .missing = (none, some "⚠️ policy.txt not found") ∧
    load_instructions_file true .missing = (none, some "⚠️ instructions.txt not found") ∧
    load_text_file "policy.txt" POLICY_MAX_CHARS .missing
      = (none, some "File not found: policy.txt") ∧
    load_text_file "instructions.txt" INSTRUCTIONS_MAX_CHARS .missing
      = (none, some "File not found: instructions.txt") ∧
    (∀ fs, load_policy_file false fs = (none, none)) ∧
    (∀ fs, load_instructions_file false fs = (none, none)) :=
  C9_empty_vs_missing "# a comment\n\n# another" (by decide) (by decide) (by decide)

/-! ## Claim C7 -/

/-- C7 counterexample: the Discord instructions loader has NO `#policy`
exception — a file whose only line starts with `#policy` loads as empty
`(none, none)` instead of retaining the line — while the policy loader does
retain it, and does so case-insensitively (`#POLICY` too, so the marker
match is not against the literal `#policy` only). -/
theorem C7_counterexample :
    load_instructions_file true (.present "#policy 1: no spam") = (none, none) ∧
    load_policy_file true (.present "#policy 1: no spam")
      = (some "#policy 1: no spam", none) ∧
    load_policy_file true (.present "#POLICY A") = (some "#POLICY A", none) ∧
    load_text_file "policy.txt" POLICY_MAX_CHARS (.present "#policy 1: no spam")
      = (some "#policy 1: no spam", none) := by
  decide

/-- C7 (amended): the Discord policy loader and the Telegram loader (used
for both files there) strip blank lines and `#`-comment lines except lines
whose lowercased form starts with `#policy`, which are retained (stripped of
surrounding whitespace); the Discord instructions loader strips every
`#`-starting line with no `#policy` exception. -/
theorem C7_amended (c l : String)
    (hl : l ∈ pySplitNl (pyStrip c))
    (hmk : pyStartswith (pyLower (pyStrip l)) "#policy" = true) :
    pyStrip l ∈ load_policy_lines c ∧
    pyStrip l ∈ telegram_kept_lines c ∧
    (∀ line, line ∈ load_policy_lines c →
      line ≠ "" ∧ (pyStartswith line "#" = true →
        pyStartswith (pyLower line) "#policy" = true)) ∧
    (∀ line, line ∈ telegram_kept_lines c →
      line ≠ "" ∧ (pyStartswith line "#" = true →
        pyStartswith (pyLower line) "#policy" = true)) ∧
    (∀ line, line ∈ load_instructions_lines c →
      pyStrip line ≠ "" ∧ pyStartswith (pyStrip line) "#" = false) := by
  have hne : pyStrip l ≠ "" := marker_ne_empty _ hmk
  refine ⟨?_, ?_, ?_, ?_, ?_⟩
  · rw [load_policy_lines_eq]
    refine List.mem_filter.mpr ⟨List.mem_map_of_mem pyStrip hl, ?_⟩
    simp [discord_policy_keep, hmk]
  · rw [telegram_kept_lines_eq]
    refine List.mem_filter.mpr ⟨List.mem_map_of_mem pyStrip hl, ?_⟩
    simp [telegram_line_keep, hmk, hne]
  · intro line hmem
    rw [load_policy_lines_eq] at hmem
    have hkeep := (List.mem_filter.mp hmem).2
    simp only [discord_policy_keep, Bool.or_eq_true, Bool.and_eq_true,
      Bool.not_eq_true', decide_eq_true_eq] at hkeep
    rcases hkeep with hA | ⟨hne2, hns⟩
    · exact ⟨marker_ne_empty _ hA, fun _ => hA⟩
    · exact ⟨hne2, fun hsh => absurd hsh (by simp [hns])⟩
  · intro line hmem
    rw [telegram_kept_lines_eq] at hmem
    have hkeep := (List.mem_filter.mp hmem).2
    simp only [telegram_line_keep, Bool.or_eq_true, Bool.and_eq_true,
      Bool.not_eq_true', decide_eq_true_eq] at hkeep
    rcases hkeep with ⟨hne2, hA | hns⟩
    · exact ⟨hne2, fun _ => hA⟩
    · exact ⟨hne2, fun hsh => absurd hsh (by simp [hns])⟩
  · intro line hmem
    have hkeep := (List.mem_filter.mp hmem).2
    simp only [discord_instructions_keep, Bool.and_eq_true, Bool.not_eq_true',
      decide_eq_true_eq] at hkeep
    exact ⟨hkeep.1, hkeep.2⟩

/-- Witness for C7 (amended) at a concrete two-line file. -/
theorem C7_amended_witness :
    pyStrip "#policy keep" ∈ load_policy_lines "#policy keep\n# drop" ∧
    pyStrip "#policy keep" ∈ telegram_kept_lines "#policy keep\n# drop" ∧
    (∀ line, line ∈ load_policy_lines "#policy keep\n# drop" →
      line ≠ "" ∧ (pyStartswith line "#" = true →
        pyStartswith (pyLower line) "#policy" = true)) ∧
    (∀ line, line ∈ telegram_kept_lines "#policy keep\n# drop" →
      line ≠ "" ∧ (pyStartswith line "#" = true →
        pyStartswith (pyLower line) "#policy" = true)) ∧
    (∀ line, line ∈ load_instructions_lines "#policy keep\n# drop" →
      pyStrip line ≠ "" ∧ pyStartswith (pyStrip line) "#" = false) :=
  C7_amended "#policy keep\n# drop" "#policy keep" (by decide) (by decide)

/-! ## Claim C8 -/

/-- `pyTake` is the identity on strings within the cap. -/
theorem pyTake_of_le (s : String) (n : Nat) (h : s.length ≤ n) : pyTake s n = s := by
  unfold pyTake
  rw [List.take_of_length_le h]

/-- `pyTake` of the empty string. -/
theorem pyTake_empty (n : Nat) : pyTake "" n = "" := by
  simp [pyTake]

/-- The length of a slice is capped by both the cap and the string length. -/
theorem pyTake_length (s : String) (n : Nat) :
    (pyTake s n).length = min n s.length := by
  show (s.data.take n).length = min n s.data.length
  exact List.length_take n s.data

/-- The conditional truncation is unconditional `pyTake`. -/
theorem py_truncate_eq (s : String) (cap : Nat) : py_truncate s cap = pyTake s cap := by
  unfold py_truncate
  split_ifs with h
  · rfl
  · push_neg at h
    by_cases hs : s = ""
    · subst hs
      simp [pyTake]
    · exact (pyTake_of_le s cap (h hs)).symm

/-- `None` is falsy. -/
theorem pyTruthy_none : pyTruthy none = false := rfl

/-- A string option is truthy exactly when its `getD ""` is non-empty. -/
theorem truthy_getD_ne (o : Option String) : (o.getD "" ≠ "") ↔ pyTruthy o = true := by
  cases o <;> simp [pyTruthy]

/-- Closed form of `call_nova_merge`: each sent text is the claimed newline
join of the used pieces, truncated at its cap, and the provenance list is
the claimed fixed-order source list. -/
theorem call_nova_merge_eq (upf uif : Bool) (fp fi pol ins : Option String) :
    call_nova_merge upf uif fp fi pol ins =
      { final_policy :=
          pyTake (claimMergeJoin
            (if upf && USE_POLICY_FILE && pyTruthy fp then fp else none) pol)
            POLICY_MAX_CHARS,
        final_instructions :=
          pyTake (claimMergeJoin
            (if uif && USE_INSTRUCTIONS_FILE && pyTruthy fi then fi else none) ins)
            INSTRUCTIONS_MAX_CHARS,
        sources :=
          claimSources (upf && USE_POLICY_FILE && pyTruthy fp)
            (uif && USE_INSTRUCTIONS_FILE && pyTruthy fi)
            (pyTruthy pol) (pyTruthy ins) } := by
  unfold call_nova_merge claimMergeJoin claimSources
  simp only [USE_POLICY_FILE, USE_INSTRUCTIONS_FILE, Bool.and_true]
  cases upf <;> cases uif <;>
    by_cases hf : pyTruthy fp = true <;>
    by_cases hfi : pyTruthy fi = true <;>
    by_cases hp : pyTruthy pol = true <;>
    by_cases hi : pyTruthy ins = true <;>
    simp_all [py_truncate_eq, pyTake_empty, truthy_getD_ne, pyTruthy_none]

/-- A file-policy text of exactly the 10,000-character cap. -/
def bigA : String := String.mk (List.replicate 10000 'a')

/-- C8 counterexample: with a cap-sized file policy and a non-empty inline
policy, the policy actually sent is the truncation of the merge, not the
merge itself — the inline part is cut off even though the provenance list
names it. -/
theorem C8_counterexample :
    (call_nova_merge true true (some bigA) none (some "x") none).final_policy
      ≠ bigA ++ "\n" ++ "x" ∧
    (call_nova_merge true true (some bigA) none (some "x") none).sources
      = ["📄 policy.txt", "💬 inline policy"] := by
  have hlen : bigA.length = 10000 := by
    show (List.replicate 10000 (Char.ofNat 97)).length = 10000
    exact List.length_replicate 10000 (Char.ofNat 97)
  have hne0 : bigA ≠ "" := by
    intro h0
    have h1 := congrArg String.length h0
    rw [hlen] at h1
    exact absurd h1 (by decide)
  have hne : pyTruthy (some bigA) = true := by
    simp [pyTruthy, hne0]
  have hfp : (call_nova_merge true true (some bigA) none (some "x") none).final_policy
      = pyTake (bigA ++ "\n" ++ "x") POLICY_MAX_CHARS := by
    rw [call_nova_merge_eq]
    simp [claimMergeJoin, hne, pyTruthy, USE_POLICY_FILE, hne0]
  constructor
  · rw [hfp]
    intro h
    have h1 := congrArg String.length h
    rw [pyTake_length] at h1
    rw [String.length_append, String.length_append, hlen] at h1
    have h2 : ("\n" : String).length = 1 := rfl
    have h3 : ("x" : String).length = 1 := rfl
    rw [h2, h3] at h1
    rw [POLICY_MAX_CHARS] at h1
    omega
  · rw [call_nova_merge_eq]
    simp [claimSources, hne, pyTruthy, USE_POLICY_FILE, hne0]

/-- C8 (amended): the policy (resp. instructions) text sent to the API is
the file content followed by the inline content joined with a single
newline, file content first, then truncated to the 10,000 (resp. 2,000)
character cap; the provenance list records exactly the sources actually
used, in the fixed order file-policy, file-instructions, inline-policy,
inline-instructions. -/
theorem C8_amended (upf uif : Bool) (fp fi pol ins : Option String) :
    (call_nova_merge upf uif fp fi pol ins).final_policy
      = pyTake (claimMergeJoin
          (if upf && USE_POLICY_FILE && pyTruthy fp then fp else none) pol)
          POLICY_MAX_CHARS ∧
    (call_nova_merge upf uif fp fi pol ins).final_instructions
      = pyTake (claimMergeJoin
          (if uif && USE_INSTRUCTIONS_FILE && pyTruthy fi then fi else none) ins)
          INSTRUCTIONS_MAX_CHARS ∧
    (call_nova_merge upf uif fp fi pol ins).sources
      = claimSources (upf && USE_POLICY_FILE && pyTruthy fp)
          (uif && USE_INSTRUCTIONS_FILE && pyTruthy fi)
          (pyTruthy pol) (pyTruthy ins) := by
  rw [call_nova_merge_eq]
  exact ⟨rfl, rfl, rfl⟩

/-- Witness for C8 (amended) with all four sources present. -/
theorem C8_amended_witness :
    (call_nova_merge true true (some "A") (some "B") (some "C") (some "D")).final_policy
      = pyTake (claimMergeJoin
          (if true && USE_POLICY_FILE && pyTruthy (some "A") then some "A" else none)
          (some "C")) POLICY_MAX_CHARS ∧
    (call_nova_merge true true (some "A") (some "B") (some "C") (some "D")).final_instructions
      = pyTake (claimMergeJoin
          (if true && USE_INSTRUCTIONS_FILE && pyTruthy (some "B") then some "B" else none)
          (some "D")) INSTRUCTIONS_MAX_CHARS ∧
    (call_nova_merge true true (some "A") (some "B") (some "C") (some "D")).sources
      = claimSources (true && USE_POLICY_FILE && pyTruthy (some "A"))
          (true && USE_INSTRUCTIONS_FILE && pyTruthy (some "B"))
          (pyTruthy (some "C")) (pyTruthy (some "D")) :=
  C8_amended true true (some "A") (some "B") (some "C") (some "D")
